import Mathlib

/-
Verification of the EU Clinical Trials Scraper against its specification.

The development shallowly embeds the code of src/app/utils.py and src/main.py:
Python dictionaries become Lean structures, raised exceptions become the
Except monad, pandas DataFrames become lists of row structures appended in
program order, and library boundaries (pandas date parsing, pdfplumber,
boto3) are modelled at their observable interface.
-/

namespace EUTrials

set_option maxRecDepth 16384

/-- Decidable equality of Except values, needed to evaluate the embedded
fallible functions on concrete inputs. -/
instance {e a : Type} [DecidableEq e] [DecidableEq a] : DecidableEq (Except e a) := fun x y =>
  match x, y with
  | Except.ok u, Except.ok v =>
    if h : u = v then isTrue (by rw [h])
    else isFalse (by intro hh; cases hh; exact h rfl)
  | Except.ok _, Except.error _ => isFalse (by intro hh; cases hh)
  | Except.error _, Except.ok _ => isFalse (by intro hh; cases hh)
  | Except.error u, Except.error v =>
    if h : u = v then isTrue (by rw [h])
    else isFalse (by intro hh; cases hh; exact h rfl)

/-- Model of a raised Python exception escaping a function. -/
inductive PyError where
  | keyError
  | indexError
  | s3Error
deriving DecidableEq

/- ---------------------------------------------------------------------
   Python string primitives, embedded structurally so the kernel can
   evaluate them on concrete inputs.
--------------------------------------------------------------------- -/

/-- Helper for pySplit: walks the character list accumulating the current
segment, starting a new segment at each separator, exactly like the Python
str.split with an explicit separator (empty input gives one empty segment). -/
def splitCharAux (c : Char) : List Char → List Char → List String
  | [], acc => [String.mk acc.reverse]
  | x :: xs, acc =>
    if x = c then String.mk acc.reverse :: splitCharAux c xs []
    else splitCharAux c xs (x :: acc)

/-- Embedding of the Python str.split(sep) for a one-character separator. -/
def pySplit (s : String) (c : Char) : List String :=
  splitCharAux c s.toList []

/-- Embedding of the Python str.join for a string separator. -/
def pyJoin (sep : String) : List String → String
  | [] => ""
  | [x] => x
  | x :: y :: xs => x ++ sep ++ pyJoin sep (y :: xs)

/-- Embedding of the Python str.endswith. -/
def pyEndsWith (s suffix : String) : Bool :=
  s.toList.reverse.take suffix.toList.length == suffix.toList.reverse

/- ---------------------------------------------------------------------
   Data model: the per-trial JSON structure consumed by
   get_json_data_in_pandas in src/app/utils.py.  Keys the code reads become
   structure fields; keys that may be absent become Option fields.
--------------------------------------------------------------------- -/

/-- The disease classification dictionary of a trial card. -/
structure Disease where
  version : String
  soc_term : String
  classification_code : String
  term : String
  level : String
deriving DecidableEq

/-- The card dictionary of a raw trial object. -/
structure TrialCard where
  eudract_number : String
  start_date : String
  sponsor_name : String
  full_title : String
  disease : Disease
deriving DecidableEq

/-- Contents of the section keyed by the string A. Protocol Information
inside a protocol dictionary; the inner key Full title of the trial maps to
a list of strings and may itself be absent. -/
structure ProtocolInfoSection where
  full_title_of_the_trial : Option (List String)
deriving DecidableEq

/-- One protocol dictionary of a raw trial object. -/
structure Protocol where
  url : String
  a_protocol_info_section : Option ProtocolInfoSection
deriving DecidableEq

/-- The summary dictionary of one results version; the url key may be
absent. -/
structure Summary where
  url : Option String
deriving DecidableEq

/-- The payload of one results version; the summary key may be absent. -/
structure RValue where
  summary : Option Summary
deriving DecidableEq

/-- One raw per-trial JSON object from the successes list.  The results key
may be absent (modelled as none); when present it is a mapping from version
label to payload, kept in insertion order as an association list. -/
structure Trial where
  card : TrialCard
  protocols : List Protocol
  results : Option (List (String × RValue))
deriving DecidableEq

/- ---------------------------------------------------------------------
   Embedding of json.dumps on the modelled structures.  The exact rendering
   is structural JSON; what the proofs rely on is only that it includes
   every field verbatim, as the Python serializer does.
--------------------------------------------------------------------- -/

/-- A JSON string literal. -/
def jstr (s : String) : String := "\x22" ++ s ++ "\x22"

/-- A JSON object from rendered key and value pairs. -/
def jobj (fields : List (String × String)) : String :=
  "\x7b" ++ pyJoin (", ") (fields.map (fun f => jstr f.1 ++ ": " ++ f.2)) ++ "\x7d"

/-- A JSON array from rendered elements. -/
def jarr (xs : List String) : String :=
  "[" ++ pyJoin (", ") xs ++ "]"

/-- Serialization of a disease classification dictionary. -/
def dumpsDisease (d : Disease) : String :=
  jobj [("version", jstr d.version), ("soc_term", jstr d.soc_term),
        ("classification_code", jstr d.classification_code),
        ("term", jstr d.term), ("level", jstr d.level)]

/-- Serialization of a trial card dictionary. -/
def dumpsCard (c : TrialCard) : String :=
  jobj [("eudract_number", jstr c.eudract_number),
        ("start_date", jstr c.start_date),
        ("sponsor_name", jstr c.sponsor_name),
        ("full_title", jstr c.full_title),
        ("disease", dumpsDisease c.disease)]

/-- Serialization of the protocol information section. -/
def dumpsSection (s : ProtocolInfoSection) : String :=
  jobj (match s.full_title_of_the_trial with
        | none => []
        | some l => [("Full title of the trial", jarr (l.map jstr))])

/-- Serialization of a protocol dictionary. -/
def dumpsProtocol (p : Protocol) : String :=
  jobj (("url", jstr p.url) ::
        (match p.a_protocol_info_section with
         | none => []
         | some s => [("A. Protocol Information", dumpsSection s)]))

/-- Serialization of a results version summary dictionary. -/
def dumpsSummary (s : Summary) : String :=
  jobj (match s.url with
        | none => []
        | some u => [("url", jstr u)])

/-- Serialization of a results version payload. -/
def dumpsRValue (v : RValue) : String :=
  jobj (match v.summary with
        | none => []
        | some s => [("summary", dumpsSummary s)])

/-- Serialization of the results mapping. -/
def dumpsResults (rs : List (String × RValue)) : String :=
  jobj (rs.map (fun p => (p.1, dumpsRValue p.2)))

/-- Serialization of a whole raw trial object, as json.dumps(result) sees it
at the moment of the call. -/
def dumpsTrial (t : Trial) : String :=
  jobj (("card", dumpsCard t.card) ::
        ("protocols", jarr (t.protocols.map dumpsProtocol)) ::
        (match t.results with
         | none => []
         | some rs => [("results", dumpsResults rs)]))

/- ---------------------------------------------------------------------
   The normalizer: get_json_data_in_pandas of src/app/utils.py.
--------------------------------------------------------------------- -/

/-- Digits of a character list read as a natural number, when all characters
are digits and the list is nonempty. -/
def pyToNat (l : List Char) : Option Nat :=
  if l ≠ [] ∧ l.all Char.isDigit then
    some (l.foldl (fun n c => n * 10 + (c.toNat - 48)) 0)
  else none

/-- Model of the pandas to_datetime call with coercing errors, at the
library boundary: a lenient parse that yields none (NaT, which the code then
turns into None) when the string is not an ISO year-month-day date, and the
parsed date otherwise. -/
def pdToDatetime (s : String) : Option String :=
  match pySplit s '-' with
  | [y, m, d] =>
    match pyToNat y.toList, pyToNat m.toList, pyToNat d.toList with
    | some _, some mo, some da =>
      if y.length = 4 ∧ m.length = 2 ∧ d.length = 2 ∧
         1 ≤ mo ∧ mo ≤ 12 ∧ 1 ≤ da ∧ da ≤ 31 then some s else none
    | _, _, _ => none
  | _ => none

/-- Replaces the full title stored in the card of a trial, the in-place
dictionary write the fallback branch performs. -/
def setFullTitle (t : Trial) (v : String) : Trial :=
  { t with card := { t.card with full_title := v } }

/-- The full-title fallback branch: when the title ends with the truncation
marker, look up the first protocol (IndexError when there is none), its
protocol information section and the full-title field inside it (KeyError
when absent), and the first element of that list (IndexError when empty),
and write it into the card. -/
def fallbackTitle (t : Trial) : Except PyError Trial :=
  if pyEndsWith t.card.full_title ("...") then
    match t.protocols with
    | [] => Except.error PyError.indexError
    | p :: _ =>
      match p.a_protocol_info_section with
      | none => Except.error PyError.keyError
      | some sec =>
        match sec.full_title_of_the_trial with
        | none => Except.error PyError.keyError
        | some [] => Except.error PyError.indexError
        | some (v :: _) => Except.ok (setFullTitle t v)
  else Except.ok t

/-- One row of the trial information cards table. -/
structure CardRow where
  eudract_number : String
  start_date : Option String
  sponsor_name : String
  full_title : String
  version : String
  soc_term : String
  classification_code : String
  term : String
  level : String
  json : String
deriving DecidableEq

/-- One row of the trial protocols table. -/
structure ProtocolRow where
  protocol_id : String
  eudract_number : String
  url : String
  json : String
deriving DecidableEq

/-- One row of the trial results table. -/
structure ResultRow where
  eudract_number : String
  version : String
  url : String
  json : String
deriving DecidableEq

/-- The protocol identifier: split the URL on slashes, keep the last two
segments, join them with a hyphen. -/
def protocol_id_of (url : String) : String :=
  let parts := pySplit url '/'
  pyJoin ("-") (parts.drop (parts.length - 2))

/-- The card row appended for one trial, built from the trial as it stands
after the full-title fallback ran, including the audit serialization of the
whole (possibly mutated) trial object. -/
def cardRow (t : Trial) : CardRow :=
  { eudract_number := t.card.eudract_number
    start_date := pdToDatetime t.card.start_date
    sponsor_name := t.card.sponsor_name
    full_title := t.card.full_title
    version := t.card.disease.version
    soc_term := t.card.disease.soc_term
    classification_code := t.card.disease.classification_code
    term := t.card.disease.term
    level := t.card.disease.level
    json := dumpsTrial t }

/-- The protocol row appended for one protocol of a trial. -/
def protocolRow (eu : String) (p : Protocol) : ProtocolRow :=
  { protocol_id := protocol_id_of p.url
    eudract_number := eu
    url := p.url
    json := dumpsProtocol p }

/-- All protocol rows of a trial, in list order. -/
def protocolRows (eu : String) (ps : List Protocol) : List ProtocolRow :=
  ps.map (protocolRow eu)

/-- The loop over the results mapping: each version must carry a summary
dictionary with a url key, otherwise the subscript raises a KeyError that
escapes the whole normalizer. -/
def resultRows (eu : String) : List (String × RValue) → Except PyError (List ResultRow)
  | [] => Except.ok []
  | (v, value) :: rest =>
    match value.summary with
    | none => Except.error PyError.keyError
    | some s =>
      match s.url with
      | none => Except.error PyError.keyError
      | some u =>
        match resultRows eu rest with
        | Except.error e => Except.error e
        | Except.ok rs => Except.ok (ResultRow.mk eu v u (dumpsRValue value) :: rs)

/-- Whether a results version payload carries a summary url. -/
def hasSummaryUrl (v : RValue) : Bool :=
  match v.summary with
  | none => false
  | some s => s.url.isSome

/-- The result rows of a trial: nothing when the results key is absent or
the mapping is empty (the falsy check and the loop over no items agree),
otherwise the loop over the mapping. -/
def resultsOf (t : Trial) : Except PyError (List ResultRow) :=
  match t.results with
  | none => Except.ok []
  | some l => resultRows t.card.eudract_number l

/-- Processing of one truthy trial object from the successes list: run the
full-title fallback (which mutates the trial), then build the card row, the
protocol rows, and the result rows; any raised error escapes. -/
def processTrial (t : Trial) : Except PyError (CardRow × List ProtocolRow × List ResultRow) :=
  match fallbackTitle t with
  | Except.error e => Except.error e
  | Except.ok t1 =>
    match resultsOf t1 with
    | Except.error e => Except.error e
    | Except.ok rrows =>
      Except.ok (cardRow t1, protocolRows t1.card.eudract_number t1.protocols, rrows)

/-- The loop over the successes list: falsy entries are skipped, truthy
entries are processed in order and their rows appended to the three tables;
a raised error escapes and discards the whole computation. -/
def processSuccesses : List (Option Trial) → Except PyError (List CardRow × List ProtocolRow × List ResultRow)
  | [] => Except.ok ([], [], [])
  | none :: rest => processSuccesses rest
  | some t :: rest =>
    match processTrial t with
    | Except.error e => Except.error e
    | Except.ok (c, ps, rs) =>
      match processSuccesses rest with
      | Except.error e => Except.error e
      | Except.ok (cs, pss, rss) => Except.ok (c :: cs, ps ++ pss, rs ++ rss)

/-- Embedding of get_json_data_in_pandas: when the successes list is empty
the function returns the None sentinel triple (modelled as none); otherwise
it builds the three tables, and any exception raised inside the loop
escapes. -/
def get_json_data_in_pandas (successes : List (Option Trial)) :
    Except PyError (Option (List CardRow × List ProtocolRow × List ResultRow)) :=
  if successes.isEmpty then Except.ok none
  else
    match processSuccesses successes with
    | Except.error e => Except.error e
    | Except.ok tables => Except.ok (some tables)

/-- The net effect of one successful processTrial call on the trial object
the caller passed in: the full-title fallback wrote through the shared card
dictionary, so the caller's object is the fallback result (unchanged when
the fallback did not fire or failed before writing). -/
def mutateTrial (t : Trial) : Trial :=
  match fallbackTitle t with
  | Except.ok t1 => t1
  | Except.error _ => t

/-- The state of the successes list after a completed successful run of the
normalizer over it. -/
def mutatedSuccesses (s : List (Option Trial)) : List (Option Trial) :=
  s.map (Option.map mutateTrial)

/-- The audit json column of the card row a trial produces, or none when the
trial raises. -/
def cardJsonOf (t : Trial) : Option String :=
  match processTrial t with
  | Except.ok (c, _, _) => some c.json
  | Except.error _ => none

/-- The protocol rows a trial produces, or none when the trial raises. -/
def protocolRowsOf (t : Trial) : Option (List ProtocolRow) :=
  match processTrial t with
  | Except.ok (_, ps, _) => some ps
  | Except.error _ => none

/- ---------------------------------------------------------------------
   The document extractor: extract_text_and_tables_from_pdf of
   src/app/utils.py.  The zipfile and pdfplumber boundaries are modelled by
   an archive datatype: a byte blob either fails to open as a zip, or holds
   a list of entries, each of which either opens as a PDF with a list of
   pages or does not.
--------------------------------------------------------------------- -/

/-- One table extracted from a page, as pdfplumber renders it: rows of
optional cell strings. -/
abbrev Table := List (List (Option String))

/-- One page of the document: the text pdfplumber extracts (none when the
page yields no text) and the tables found on it, in in-page order. -/
structure Page where
  text : Option String
  tables : List Table
deriving DecidableEq

/-- One entry of the archive, as the code tries to open it. -/
inductive Entry where
  | pdf (pages : List Page)
  | notPdf
deriving DecidableEq

/-- The archive byte blob at the zipfile boundary. -/
inductive Archive where
  | malformed
  | wellFormed (entries : List Entry)
deriving DecidableEq

/-- The failure modes of the extractor, one per Python exception site:
opening a malformed archive, indexing an empty name list, and opening a
first entry that is not a PDF. -/
inductive ExtractionError where
  | badArchive
  | noEntries
  | badDocument
deriving DecidableEq

/-- The text contribution of one page: the page text newline-terminated,
nothing when the page yields no text (the falsy check covers both the
missing text and the empty string). -/
def pageText (p : Page) : String :=
  match p.text with
  | none => ""
  | some t => if t = "" then ("") else t ++ "\x0a"

/-- The concatenated text of a list of pages, in page order. -/
def pagesText : List Page → String
  | [] => ""
  | p :: rest => pageText p ++ pagesText rest

/-- The flat table sequence of a list of pages: page order, then in-page
order, no per-page grouping. -/
def pagesTables : List Page → List Table
  | [] => []
  | p :: rest => p.tables ++ pagesTables rest

/-- Embedding of extract_text_and_tables_from_pdf: open the archive, take
the first entry of the name list, open it as a PDF, then fold over its
pages accumulating text and tables exactly as the loop does. -/
def extract_text_and_tables_from_pdf (zip_bytes : Archive) :
    Except ExtractionError (String × List Table) :=
  match zip_bytes with
  | Archive.malformed => Except.error ExtractionError.badArchive
  | Archive.wellFormed [] => Except.error ExtractionError.noEntries
  | Archive.wellFormed (Entry.notPdf :: _) => Except.error ExtractionError.badDocument
  | Archive.wellFormed (Entry.pdf pages :: _) =>
    Except.ok (pages.foldl (fun acc page => (acc.1 ++ pageText page, acc.2 ++ page.tables)) ("", []))

/- ---------------------------------------------------------------------
   The storage writer: write_csv_to_s3 of src/app/utils.py.  The boto3
   put_object boundary is modelled by an oracle saying which puts succeed;
   the function records which puts it attempted, in order, and whether an
   exception escaped.
--------------------------------------------------------------------- -/

/-- The three tabular exports. -/
inductive TableKind where
  | cards
  | protocols
  | results
deriving DecidableEq

/-- Embedding of write_csv_to_s3: build the tables (an exception escaping
from the normalizer escapes here too), return early with no writes when the
tables are the None sentinel, then attempt the three puts strictly in
order with no exception handling, so the first failing put aborts the rest.
The first component lists the puts attempted, in order; the second is the
escaping exception, if any. -/
def write_csv_to_s3 (json_object : List (Option Trial)) (putOk : TableKind → Bool) :
    List TableKind × Option PyError :=
  match get_json_data_in_pandas json_object with
  | Except.error e => ([], some e)
  | Except.ok none => ([], none)
  | Except.ok (some _) =>
    if putOk TableKind.cards then
      if putOk TableKind.protocols then
        if putOk TableKind.results then
          ([TableKind.cards, TableKind.protocols, TableKind.results], none)
        else
          ([TableKind.cards, TableKind.protocols, TableKind.results], some PyError.s3Error)
      else ([TableKind.cards, TableKind.protocols], some PyError.s3Error)
    else ([TableKind.cards], some PyError.s3Error)

/- ---------------------------------------------------------------------
   The driver loop: main and scrape_by_date_range of src/main.py.  Dates
   are modelled as day indices; strftime as their string rendering.  The
   scraper and the per-snapshot persistence call live outside src, so the
   snapshot is modelled at the boundary by the metadata fields the loop
   itself fills in.
--------------------------------------------------------------------- -/

/-- Rendering of a date by strftime with the year-month-day format, at the
datetime boundary; dates are day indices here. -/
def strftimeDay (d : Nat) : String := toString d

/-- The metadata of the output snapshot one scrape_by_date_range call
builds: the query start and end dates, formatted. -/
structure Snapshot where
  query_start_date : String
  query_end_date : String
deriving DecidableEq

/-- Embedding of scrape_by_date_range, restricted to the metadata it
derives from its two date arguments. -/
def scrape_by_date_range (start_date end_date : Nat) : Snapshot :=
  Snapshot.mk (strftimeDay start_date) (strftimeDay end_date)

/-- Embedding of the while loop in main: starting from the validated start
date, while the current date is at most the end date, scrape with the
current date as both arguments, persist that snapshot, and advance one day.
Each list element is one iteration: the argument pair passed to
scrape_by_date_range and the snapshot handed to persistence. -/
def mainLoop (start_d end_d : Nat) : List ((Nat × Nat) × Snapshot) :=
  if h : start_d ≤ end_d then
    ((start_d, start_d), scrape_by_date_range start_d start_d) :: mainLoop (start_d + 1) end_d
  else []
termination_by end_d + 1 - start_d
decreasing_by omega

/- ---------------------------------------------------------------------
   Shared lemmas about the normalizer.
--------------------------------------------------------------------- -/

/-- Case analysis of a successful full-title fallback: either the title did
not end with the marker and the trial is untouched, or it did and the title
was overwritten with the first element of the nested field of the first
protocol. -/
theorem fallbackTitle_ok_cases (t t1 : Trial) (h : fallbackTitle t = Except.ok t1) :
    (pyEndsWith t.card.full_title ("...") = false ∧ t1 = t) ∨
    (pyEndsWith t.card.full_title ("...") = true ∧
      ∃ p rest sec v vs, t.protocols = p :: rest ∧ p.a_protocol_info_section = some sec ∧
        sec.full_title_of_the_trial = some (v :: vs) ∧ t1 = setFullTitle t v) := by
  unfold fallbackTitle at h
  by_cases hb : pyEndsWith t.card.full_title ("...") = true
  · rw [if_pos hb] at h
    refine Or.inr ⟨hb, ?_⟩
    cases hp : t.protocols with
    | nil => rw [hp] at h; cases h
    | cons p rest =>
      rw [hp] at h
      dsimp only [] at h
      cases hsec : p.a_protocol_info_section with
      | none => rw [hsec] at h; cases h
      | some sec =>
        rw [hsec] at h
        dsimp only [] at h
        cases hf : sec.full_title_of_the_trial with
        | none => rw [hf] at h; cases h
        | some l =>
          cases l with
          | nil => rw [hf] at h; cases h
          | cons v vs =>
            rw [hf] at h
            dsimp only [] at h
            injection h with h
            exact ⟨p, rest, sec, v, vs, rfl, hsec, hf, h.symm⟩
  · rw [if_neg hb] at h
    injection h with h
    rw [Bool.not_eq_true] at hb
    exact Or.inl ⟨hb, h.symm⟩

/-- A successful fallback does not change the protocols list. -/
theorem fallbackTitle_ok_protocols (t t1 : Trial) (h : fallbackTitle t = Except.ok t1) :
    t1.protocols = t.protocols := by
  rcases fallbackTitle_ok_cases t t1 h with ⟨_, rfl⟩ | ⟨_, p, rest, sec, v, vs, _, _, _, rfl⟩
  · rfl
  · rfl

/-- A successful fallback does not change the results mapping. -/
theorem fallbackTitle_ok_results (t t1 : Trial) (h : fallbackTitle t = Except.ok t1) :
    t1.results = t.results := by
  rcases fallbackTitle_ok_cases t t1 h with ⟨_, rfl⟩ | ⟨_, p, rest, sec, v, vs, _, _, _, rfl⟩
  · rfl
  · rfl

/-- Running the fallback on the result of a successful fallback changes
nothing further: the replacement value was taken from the protocols, which
the fallback never touches, so a second firing writes the same value. -/
theorem fallbackTitle_idem (t t1 : Trial) (h : fallbackTitle t = Except.ok t1) :
    fallbackTitle t1 = Except.ok t1 := by
  rcases fallbackTitle_ok_cases t t1 h with ⟨hb, rfl⟩ | ⟨hb, p, rest, sec, v, vs, hp, hsec, hf, rfl⟩
  · unfold fallbackTitle
    rw [if_neg (by rw [hb]; exact Bool.false_ne_true)]
  · unfold fallbackTitle
    by_cases hv : pyEndsWith (setFullTitle t v).card.full_title ("...") = true
    · rw [if_pos hv]
      have hps : (setFullTitle t v).protocols = t.protocols := rfl
      rw [hps, hp]
      dsimp only []
      rw [hsec]
      dsimp only []
      rw [hf]
      dsimp only []
      rfl
    · rw [if_neg hv]

/-- Destructuring of one successful trial step into its fallback result and
the three row groups built from it. -/
theorem processTrial_ok_elim (t : Trial) (c : CardRow) (ps : List ProtocolRow)
    (rs : List ResultRow) (h : processTrial t = Except.ok (c, ps, rs)) :
    ∃ t1, fallbackTitle t = Except.ok t1 ∧ c = cardRow t1 ∧
      ps = protocolRows t1.card.eudract_number t1.protocols ∧
      resultsOf t1 = Except.ok rs := by
  unfold processTrial at h
  cases hf : fallbackTitle t with
  | error e => rw [hf] at h; cases h
  | ok t1 =>
    rw [hf] at h
    dsimp only [] at h
    cases hr : resultsOf t1 with
    | error e => rw [hr] at h; cases h
    | ok rrows =>
      rw [hr] at h
      dsimp only [] at h
      injection h with h
      rw [Prod.mk.injEq, Prod.mk.injEq] at h
      obtain ⟨h1, h2, h3⟩ := h
      exact ⟨t1, rfl, h1.symm, h2.symm, by rw [hr, h3]⟩

/-- When a trial processes successfully, its post-run state is the fallback
result. -/
theorem mutateTrial_of_ok (t t1 : Trial) (h : fallbackTitle t = Except.ok t1) :
    mutateTrial t = t1 := by
  unfold mutateTrial
  rw [h]

/-- Reprocessing the post-run state of a successfully processed trial gives
the same three row groups. -/
theorem processTrial_mutate (t : Trial)
    (out : CardRow × List ProtocolRow × List ResultRow)
    (h : processTrial t = Except.ok out) :
    processTrial (mutateTrial t) = Except.ok out := by
  obtain ⟨c, ps, rs⟩ := out
  obtain ⟨t1, hf, hc, hp, hr⟩ := processTrial_ok_elim t c ps rs h
  rw [mutateTrial_of_ok t t1 hf]
  unfold processTrial
  rw [fallbackTitle_idem t t1 hf]
  dsimp only []
  rw [hr]
  dsimp only []
  rw [hc, hp]

/-- Unfolding equation for the post-run state of a successes list. -/
theorem mutatedSuccesses_cons (a : Option Trial) (rest : List (Option Trial)) :
    mutatedSuccesses (a :: rest) = a.map mutateTrial :: mutatedSuccesses rest := rfl

/-- Reprocessing the post-run state of a fully successful batch rebuilds
exactly the same three tables. -/
theorem processSuccesses_mutate (s : List (Option Trial))
    (out : List CardRow × List ProtocolRow × List ResultRow)
    (h : processSuccesses s = Except.ok out) :
    processSuccesses (mutatedSuccesses s) = Except.ok out := by
  induction s generalizing out with
  | nil => exact h
  | cons a rest ih =>
    cases a with
    | none =>
      rw [mutatedSuccesses_cons]
      exact ih out h
    | some t =>
      rw [mutatedSuccesses_cons]
      unfold processSuccesses at h ⊢
      cases hpt : processTrial t with
      | error e => rw [hpt] at h; cases h
      | ok triple =>
        rw [hpt] at h
        dsimp only [] at h
        obtain ⟨c, ps, rs⟩ := triple
        cases hrest : processSuccesses rest with
        | error e => rw [hrest] at h; cases h
        | ok triple2 =>
          rw [hrest] at h
          dsimp only [] at h
          obtain ⟨cs, pss, rss⟩ := triple2
          dsimp only [Option.map]
          rw [processTrial_mutate t (c, ps, rs) hpt]
          dsimp only []
          rw [ih (cs, pss, rss) hrest]
          exact h

/-- A results version without a summary url makes the results loop raise,
whatever the other versions hold. -/
theorem resultRows_error_of_bad (eu : String) (l : List (String × RValue))
    (x : String × RValue) (hx : x ∈ l) (hbad : hasSummaryUrl x.2 = false) :
    ∃ e, resultRows eu l = Except.error e := by
  induction l with
  | nil => cases hx
  | cons y rest ih =>
    obtain ⟨v, value⟩ := y
    unfold resultRows
    rcases List.mem_cons.mp hx with heq | hmem
    · have hbv : hasSummaryUrl value = false := by rw [heq] at hbad; exact hbad
      unfold hasSummaryUrl at hbv
      cases hs : value.summary with
      | none => exact ⟨PyError.keyError, rfl⟩
      | some sm =>
        rw [hs] at hbv
        dsimp only [] at hbv
        dsimp only []
        cases hu : sm.url with
        | none => exact ⟨PyError.keyError, rfl⟩
        | some u => rw [hu] at hbv; simp at hbv
    · obtain ⟨e, he⟩ := ih hmem
      cases hs : value.summary with
      | none => exact ⟨PyError.keyError, rfl⟩
      | some sm =>
        dsimp only []
        cases hu : sm.url with
        | none => exact ⟨PyError.keyError, rfl⟩
        | some u =>
          dsimp only []
          rw [he]
          exact ⟨e, rfl⟩

/-- A trial carrying a results version without a summary url raises inside
its processing step. -/
theorem processTrial_error_of_badResults (t : Trial) (l : List (String × RValue))
    (x : String × RValue) (hres : t.results = some l) (hx : x ∈ l)
    (hbad : hasSummaryUrl x.2 = false) :
    ∃ e, processTrial t = Except.error e := by
  unfold processTrial
  cases hf : fallbackTitle t with
  | error e => exact ⟨e, rfl⟩
  | ok t1 =>
    dsimp only []
    have hres1 : t1.results = some l := by
      rw [fallbackTitle_ok_results t t1 hf, hres]
    obtain ⟨e, he⟩ := resultRows_error_of_bad t1.card.eudract_number l x hx hbad
    have hro : resultsOf t1 = Except.error e := by
      unfold resultsOf
      rw [hres1]
      exact he
    rw [hro]
    exact ⟨e, rfl⟩

/-- A raised processing error of any member trial escapes the whole batch
loop. -/
theorem processSuccesses_error_of_mem (s : List (Option Trial)) (t : Trial)
    (hmem : some t ∈ s) (herr : ∃ e, processTrial t = Except.error e) :
    ∃ e, processSuccesses s = Except.error e := by
  induction s with
  | nil => cases hmem
  | cons a rest ih =>
    rcases List.mem_cons.mp hmem with heq | hmem2
    · obtain ⟨e, he⟩ := herr
      refine ⟨e, ?_⟩
      rw [← heq]
      unfold processSuccesses
      rw [he]
    · cases a with
      | none => exact ih hmem2
      | some u =>
        obtain ⟨e, he⟩ := ih hmem2
        unfold processSuccesses
        cases hu : processTrial u with
        | error e2 => exact ⟨e2, rfl⟩
        | ok triple =>
          obtain ⟨c, ps, rs⟩ := triple
          dsimp only []
          rw [he]
          exact ⟨e, rfl⟩

/-- Closed form of the page loop of the extractor: starting from any
accumulated text and tables, the fold appends the concatenated page texts
and the flattened page tables. -/
theorem extract_foldl (pages : List Page) (s : String) (ts : List Table) :
    pages.foldl (fun acc page => (acc.1 ++ pageText page, acc.2 ++ page.tables)) (s, ts)
      = (s ++ pagesText pages, ts ++ pagesTables pages) := by
  induction pages generalizing s ts with
  | nil => simp [pagesText, pagesTables]
  | cons p rest ih =>
    simp only [List.foldl_cons, pagesText, pagesTables]
    rw [ih]
    rw [String.append_assoc, List.append_assoc]

/- ---------------------------------------------------------------------
   Concrete inputs used by witnesses and counterexamples.
--------------------------------------------------------------------- -/

/-- A disease classification used by the concrete trials below. -/
def diseaseW : Disease := Disease.mk ("20.0") "Neoplasms" "10000001" "Cancer" "PT"

/-- A plain trial: full title without the truncation marker, no protocols,
no results. -/
def trialPlain : Trial :=
  Trial.mk (TrialCard.mk ("2020-000001-11") "2021-03-05" "Acme" "Plain title" diseaseW) [] none

/-- A trial with a truncated full title and a first protocol carrying the
replacement title. -/
def trialTruncated : Trial :=
  Trial.mk
    (TrialCard.mk ("2020-000002-22") "2021-03-05" "Acme" "Study of X..." diseaseW)
    [Protocol.mk ("https://www.clinicaltrialsregister.eu/ctr-search/trial/2020-000002-22/DE")
      (some (ProtocolInfoSection.mk (some ["Study of X in adult patients"])))]
    none

/-- The spec example trial for the full-title fallback. -/
def trialExample : Trial :=
  Trial.mk
    (TrialCard.mk ("2020-000003-33") "2021-03-05" "Acme" "Study of X..." diseaseW)
    [Protocol.mk ("https://www.clinicaltrialsregister.eu/ctr-search/trial/2020-000003-33/DE")
      (some (ProtocolInfoSection.mk (some ["Study of X in adult patients"])))]
    none

/-- A trial like trialTruncated, used to show the second normalizer run. -/
def trialFallback : Trial :=
  Trial.mk
    (TrialCard.mk ("2020-000004-44") "2021-03-05" "Acme" "Study of Y..." diseaseW)
    [Protocol.mk ("https://www.clinicaltrialsregister.eu/ctr-search/trial/2020-000004-44/DE")
      (some (ProtocolInfoSection.mk (some ["Study of Y in children"])))]
    none

/-- A well-formed trial processed before the failing one in the batch
counterexample. -/
def trialOne : Trial :=
  Trial.mk (TrialCard.mk ("2020-000005-55") "2021-03-05" "Acme" "First trial" diseaseW) [] none

/-- The results mapping with a second version lacking the summary url. -/
def resultsBadW : List (String × RValue) :=
  [("v1", RValue.mk (some (Summary.mk (some ("https://reg/results/v1"))))),
   ("v2", RValue.mk (some (Summary.mk none)))]

/-- A trial whose results mapping has one good version and one version
without a summary url. -/
def trialBadVersion : Trial :=
  Trial.mk (TrialCard.mk ("2020-000006-66") "2021-03-06" "Beta" "Second trial" diseaseW)
    [] (some resultsBadW)

/-- A trial with the two spec example protocol URLs. -/
def trialTwoProtocols : Trial :=
  Trial.mk (TrialCard.mk ("2020-000007-77") "2021-03-05" "Acme" "Urls trial" diseaseW)
    [Protocol.mk ("https://www.clinicaltrialsregister.eu/ctr-search/trial/EU-CT-001/DE") none,
     Protocol.mk ("https://www.clinicaltrialsregister.eu/ctr-search/trial/EU-CT-001/FR") none]
    none

/-- A trial with two protocols whose URLs differ only before the last two
path segments. -/
def trialCollision : Trial :=
  Trial.mk (TrialCard.mk ("2020-000008-88") "2021-03-05" "Acme" "Collision trial" diseaseW)
    [Protocol.mk ("https://a.example/x/EU-CT-001/DE") none,
     Protocol.mk ("https://b.example/y/EU-CT-001/DE") none]
    none

/-- The one-row table of the extractor example. -/
def tableT : Table := [[some ("r1c1"), some ("r1c2")]]

/- ---------------------------------------------------------------------
   Claim theorems.
--------------------------------------------------------------------- -/

/-- Claim C1, amended: on an empty successes sequence the normalizer
returns the None sentinel triple, not three empty tables; it does not
raise. -/
theorem empty_successes_returns_none_triple :
    get_json_data_in_pandas [] = Except.ok none := by decide

/-- Claim C1, counterexample: on the empty input the normalizer does not
return three empty tables, refuting the claim as stated. -/
theorem empty_successes_not_three_empty_tables :
    get_json_data_in_pandas [] ≠ Except.ok (some ([], [], [])) := by decide

/-- Claim C5: the extractor fails with an extraction error, not a
successful return, whenever the archive is malformed, has zero entries, or
its first entry cannot be opened as a PDF. -/
theorem extraction_fails_on_bad_archive (a : Archive)
    (h : a = Archive.malformed ∨ a = Archive.wellFormed [] ∨
         ∃ rest, a = Archive.wellFormed (Entry.notPdf :: rest)) :
    ∃ e, extract_text_and_tables_from_pdf a = Except.error e := by
  rcases h with rfl | rfl | ⟨rest, rfl⟩
  · exact ⟨ExtractionError.badArchive, rfl⟩
  · exact ⟨ExtractionError.noEntries, rfl⟩
  · exact ⟨ExtractionError.badDocument, rfl⟩

/-- Claim C5, witness at the malformed archive. -/
theorem extraction_fails_witness :
    (Archive.malformed = Archive.malformed ∨ Archive.malformed = Archive.wellFormed [] ∨
      ∃ rest, Archive.malformed = Archive.wellFormed (Entry.notPdf :: rest)) ∧
    ∃ e, extract_text_and_tables_from_pdf Archive.malformed = Except.error e :=
  ⟨Or.inl rfl, extraction_fails_on_bad_archive Archive.malformed (Or.inl rfl)⟩

/-- Claim C8: extraction of a well-formed archive whose first entry is a
PDF concatenates the newline-terminated nonempty page texts in page order
and flattens all page tables into one ordered sequence; in particular the
two-page example with an empty first page yields the text of the second
page newline-terminated and its one table. -/
theorem extract_concatenates_pages (pages : List Page) (rest : List Entry) :
    extract_text_and_tables_from_pdf (Archive.wellFormed (Entry.pdf pages :: rest))
      = Except.ok (pagesText pages, pagesTables pages) ∧
    extract_text_and_tables_from_pdf
        (Archive.wellFormed [Entry.pdf [Page.mk none [], Page.mk (some ("T")) [tableT]]])
      = Except.ok ("T\n", [tableT]) := by
  constructor
  · unfold extract_text_and_tables_from_pdf
    dsimp only []
    rw [extract_foldl]
    rw [String.empty_append]
    rfl
  · decide

/-- Claim C2, amended: the audit json column of a trial card row is the
serialization of the trial object as it stands after the full-title
fallback wrote into it; it equals the serialization of the raw input
exactly when the incoming full title does not end with the truncation
marker. -/
theorem audit_json_is_serialization_after_title_fallback (t : Trial)
    (c : CardRow) (ps : List ProtocolRow) (rs : List ResultRow)
    (h : processTrial t = Except.ok (c, ps, rs)) :
    c.json = dumpsTrial (mutateTrial t) ∧
    (pyEndsWith t.card.full_title ("...") = false → c.json = dumpsTrial t) := by
  obtain ⟨t1, hf, hc, _, _⟩ := processTrial_ok_elim t c ps rs h
  have hf2 : fallbackTitle t = Except.ok t1 := hf
  have hmu : mutateTrial t = t1 := mutateTrial_of_ok t t1 hf2
  constructor
  · rw [hc, hmu]; rfl
  · intro hfalse
    have ht : t1 = t := by
      rcases fallbackTitle_ok_cases t t1 hf2 with ⟨_, h2⟩ | ⟨htrue, _⟩
      · exact h2
      · rw [htrue] at hfalse; cases hfalse
    rw [hc, ht]; rfl

/-- Claim C2, witness: a trial without the truncation marker keeps its raw
serialization in the audit column. -/
theorem audit_json_witness :
    ∃ c ps rs, processTrial trialPlain = Except.ok (c, ps, rs) ∧
      pyEndsWith trialPlain.card.full_title ("...") = false ∧
      c.json = dumpsTrial (mutateTrial trialPlain) ∧ c.json = dumpsTrial trialPlain := by
  refine ⟨_, _, _, rfl, by decide, ?_, ?_⟩
  · exact (audit_json_is_serialization_after_title_fallback trialPlain _ _ _ rfl).1
  · exact (audit_json_is_serialization_after_title_fallback trialPlain _ _ _ rfl).2 (by decide)

/-- Claim C2, counterexample: a trial whose full title ends with the
truncation marker normalizes successfully but its audit json column is not
the serialization of the raw input, because the fallback mutated the shared
card dictionary before the dump. -/
theorem audit_json_not_verbatim_counterexample :
    cardJsonOf trialTruncated ≠ none ∧
    cardJsonOf trialTruncated ≠ some (dumpsTrial trialTruncated) := by decide

/-- Claim C3, amended: a results version without a summary url raises a
KeyError that escapes the whole normalizer: no tables are returned for the
entire batch, rather than a per-version error confined to that version. -/
theorem missing_summary_url_aborts_normalization (s : List (Option Trial))
    (t : Trial) (l : List (String × RValue)) (x : String × RValue)
    (hmem : some t ∈ s) (hres : t.results = some l) (hx : x ∈ l)
    (hbad : hasSummaryUrl x.2 = false) :
    ∃ e, get_json_data_in_pandas s = Except.error e := by
  obtain ⟨e, he⟩ := processSuccesses_error_of_mem s t hmem
    (processTrial_error_of_badResults t l x hres hx hbad)
  refine ⟨e, ?_⟩
  unfold get_json_data_in_pandas
  have hne : s.isEmpty = false := by
    cases s with
    | nil => cases hmem
    | cons a rest => rfl
  rw [if_neg (by rw [hne]; exact Bool.false_ne_true)]
  rw [he]

/-- Claim C3, witness: a batch holding a good trial and a trial with one
good and one bad results version raises. -/
theorem missing_summary_url_aborts_witness :
    some trialBadVersion ∈ [some trialOne, some trialBadVersion] ∧
    trialBadVersion.results = some resultsBadW ∧
    ("v2", RValue.mk (some (Summary.mk none))) ∈ resultsBadW ∧
    hasSummaryUrl (RValue.mk (some (Summary.mk none))) = false ∧
    ∃ e, get_json_data_in_pandas [some trialOne, some trialBadVersion] = Except.error e := by
  refine ⟨by decide, rfl, by decide, rfl, ?_⟩
  exact missing_summary_url_aborts_normalization [some trialOne, some trialBadVersion]
    trialBadVersion resultsBadW ("v2", RValue.mk (some (Summary.mk none)))
    (by decide) rfl (by decide) rfl

/-- Claim C3, counterexample: in a batch whose second trial has versions v1
with a summary url and v2 without, the whole normalization returns a raised
KeyError; the good trial and the good version v1 yield no rows at all, so
the failure is not scoped to the one version. -/
theorem missing_summary_url_counterexample :
    get_json_data_in_pandas [some trialOne, some trialBadVersion]
      = Except.error PyError.keyError := by decide

/-- Claim C6: when a trial whose full title ends with the truncation marker
processes successfully, its card row carries the first element of the full
title field of the protocol information section of the first protocol. -/
theorem full_title_fallback_uses_first_protocol (t : Trial)
    (c : CardRow) (ps : List ProtocolRow) (rs : List ResultRow)
    (h : processTrial t = Except.ok (c, ps, rs))
    (hdots : pyEndsWith t.card.full_title ("...") = true)
    (p : Protocol) (rest : List Protocol) (hp : t.protocols = p :: rest)
    (sec : ProtocolInfoSection) (hsec : p.a_protocol_info_section = some sec)
    (v : String) (vs : List String) (hv : sec.full_title_of_the_trial = some (v :: vs)) :
    c.full_title = v := by
  obtain ⟨t1, hf, hc, _, _⟩ := processTrial_ok_elim t c ps rs h
  rcases fallbackTitle_ok_cases t t1 hf with ⟨hfalse, _⟩ | ⟨_, p2, rest2, sec2, v2, vs2, hp2, hsec2, hv2, ht1⟩
  · rw [hdots] at hfalse; cases hfalse
  · rw [hp] at hp2
    injection hp2 with hpe hre
    rw [← hpe] at hsec2
    rw [hsec] at hsec2
    injection hsec2 with hse
    rw [← hse] at hv2
    rw [hv] at hv2
    injection hv2 with hle
    injection hle with hve hvse
    rw [hc, ht1, ← hve]
    rfl

/-- Claim C6, witness at the spec example: the truncated title Study of X
with the marker is replaced by the full title carried by the first
protocol. -/
theorem full_title_fallback_witness :
    ∃ c ps rs, processTrial trialExample = Except.ok (c, ps, rs) ∧
      c.full_title = "Study of X in adult patients" := by
  refine ⟨_, _, _, rfl, ?_⟩
  exact full_title_fallback_uses_first_protocol trialExample _ _ _ rfl (by decide)
    (Protocol.mk ("https://www.clinicaltrialsregister.eu/ctr-search/trial/2020-000003-33/DE")
      (some (ProtocolInfoSection.mk (some ["Study of X in adult patients"])))) [] rfl
    (ProtocolInfoSection.mk (some ["Study of X in adult patients"])) rfl
    "Study of X in adult patients" [] rfl

/-- Claim C7, amended: every protocol row's identifier is the hyphen join
of the last two slash-separated segments of its url, and the two example
URLs give the distinct identifiers of the claim; but the identifier depends
only on those two segments, so uniqueness holds only when they differ, not
for arbitrary document-path differences. -/
theorem protocol_id_last_two_segments (t : Trial)
    (c : CardRow) (ps : List ProtocolRow) (rs : List ResultRow)
    (h : processTrial t = Except.ok (c, ps, rs)) :
    (∀ r ∈ ps, r.protocol_id = protocol_id_of r.url) ∧
    protocol_id_of ("https://www.clinicaltrialsregister.eu/ctr-search/trial/EU-CT-001/DE")
      = "EU-CT-001-DE" ∧
    protocol_id_of ("https://www.clinicaltrialsregister.eu/ctr-search/trial/EU-CT-001/FR")
      = "EU-CT-001-FR" ∧
    ("EU-CT-001-DE" : String) ≠ "EU-CT-001-FR" := by
  refine ⟨?_, by decide, by decide, by decide⟩
  obtain ⟨t1, _, _, hp, _⟩ := processTrial_ok_elim t c ps rs h
  intro r hr
  rw [hp] at hr
  unfold protocolRows at hr
  obtain ⟨pp, _, hppr⟩ := List.mem_map.mp hr
  rw [← hppr]
  rfl

/-- Claim C7, witness: a trial carrying the two example protocol URLs
processes into rows whose identifiers follow the derivation rule. -/
theorem protocol_id_witness :
    ∃ c ps rs, processTrial trialTwoProtocols = Except.ok (c, ps, rs) ∧
      ((∀ r ∈ ps, r.protocol_id = protocol_id_of r.url) ∧
       protocol_id_of ("https://www.clinicaltrialsregister.eu/ctr-search/trial/EU-CT-001/DE")
         = "EU-CT-001-DE" ∧
       protocol_id_of ("https://www.clinicaltrialsregister.eu/ctr-search/trial/EU-CT-001/FR")
         = "EU-CT-001-FR" ∧
       ("EU-CT-001-DE" : String) ≠ "EU-CT-001-FR") := by
  refine ⟨_, _, _, rfl, ?_⟩
  exact protocol_id_last_two_segments trialTwoProtocols _ _ _ rfl

/-- Claim C7, counterexample: two protocols of one trial whose URLs differ
but agree on the last two path segments receive the same protocol
identifier, so the identifier is not unique for protocols that share a
trial and differ in document path. -/
theorem protocol_id_collision_counterexample :
    Option.map (fun l => l.map (fun r => r.protocol_id)) (protocolRowsOf trialCollision)
      = some ["EU-CT-001-DE", "EU-CT-001-DE"] ∧
    Option.map (fun l => l.map (fun r => r.url)) (protocolRowsOf trialCollision)
      = some ["https://a.example/x/EU-CT-001/DE", "https://b.example/y/EU-CT-001/DE"] ∧
    ("https://a.example/x/EU-CT-001/DE" : String) ≠ "https://b.example/y/EU-CT-001/DE" := by
  decide

/-- Claim C9: the normalizer is deterministic across runs, including a
second run over the same in-memory objects: when a run returns tables, a
run over the input state the first run left behind (the full-title fallback
writes into the shared card dictionaries) returns exactly the same three
tables. -/
theorem normalize_second_run_identical (s : List (Option Trial))
    (r : Option (List CardRow × List ProtocolRow × List ResultRow))
    (h : get_json_data_in_pandas s = Except.ok r) :
    get_json_data_in_pandas (mutatedSuccesses s) = Except.ok r := by
  unfold get_json_data_in_pandas at h ⊢
  cases s with
  | nil => exact h
  | cons a rest =>
    rw [if_neg (show ¬ ((a :: rest : List (Option Trial)).isEmpty = true) from fun hh => by cases hh)] at h
    rw [mutatedSuccesses_cons]
    rw [if_neg (show ¬ ((Option.map mutateTrial a :: mutatedSuccesses rest).isEmpty = true) from fun hh => by cases hh)]
    cases hps : processSuccesses (a :: rest) with
    | error e => rw [hps] at h; cases h
    | ok out =>
      rw [hps] at h
      dsimp only [] at h
      have h2 := processSuccesses_mutate (a :: rest) out hps
      rw [mutatedSuccesses_cons] at h2
      rw [h2]
      exact h

/-- Claim C9, witness: a one-trial batch whose fallback fires normalizes to
the same tables when rerun on the mutated input state. -/
theorem normalize_second_run_witness :
    ∃ r, get_json_data_in_pandas [some trialFallback] = Except.ok r ∧
      get_json_data_in_pandas (mutatedSuccesses [some trialFallback]) = Except.ok r := by
  refine ⟨_, rfl, ?_⟩
  exact normalize_second_run_identical [some trialFallback] _ rfl

/-- Claim C4, amended: the three table writes are attempted strictly in
sequence with no exception handling, so a failing earlier write suppresses
the later writes: a failed cards put leaves protocols and results
unattempted, a failed protocols put leaves results unattempted, and all
three are attempted exactly when the first two puts succeed. -/
theorem s3_writes_sequential_stop_on_failure (inp : List (Option Trial))
    (putOk : TableKind → Bool)
    (tables : List CardRow × List ProtocolRow × List ResultRow)
    (h : get_json_data_in_pandas inp = Except.ok (some tables)) :
    (putOk TableKind.cards = false →
      write_csv_to_s3 inp putOk = ([TableKind.cards], some PyError.s3Error)) ∧
    (putOk TableKind.cards = true → putOk TableKind.protocols = false →
      write_csv_to_s3 inp putOk
        = ([TableKind.cards, TableKind.protocols], some PyError.s3Error)) ∧
    (putOk TableKind.cards = true → putOk TableKind.protocols = true →
      (write_csv_to_s3 inp putOk).1
        = [TableKind.cards, TableKind.protocols, TableKind.results]) := by
  unfold write_csv_to_s3
  rw [h]
  dsimp only []
  refine ⟨?_, ?_, ?_⟩
  · intro h1
    rw [if_neg (by rw [h1]; exact Bool.false_ne_true)]
  · intro h1 h2
    rw [if_pos h1, if_neg (by rw [h2]; exact Bool.false_ne_true)]
  · intro h1 h2
    rw [if_pos h1, if_pos h2]
    cases h3 : putOk TableKind.results with
    | false => rw [if_neg Bool.false_ne_true]
    | true => rw [if_pos rfl]

/-- Claim C4, witness: on a one-trial batch with every put failing, only
the cards write is attempted. -/
theorem s3_writes_witness :
    get_json_data_in_pandas [some trialPlain]
      = Except.ok (some ([cardRow trialPlain], [], [])) ∧
    (fun _ : TableKind => false) TableKind.cards = false ∧
    write_csv_to_s3 [some trialPlain] (fun _ => false)
      = ([TableKind.cards], some PyError.s3Error) := by
  refine ⟨by decide, rfl, ?_⟩
  exact (s3_writes_sequential_stop_on_failure [some trialPlain] (fun _ => false)
    ([cardRow trialPlain], [], []) (by decide)).1 rfl

/-- Claim C4, counterexample: with a failing cards put, the protocols and
results writes are never attempted, refuting the claim that all three
writes are attempted independently. -/
theorem s3_write_failure_suppresses_rest :
    (write_csv_to_s3 [some trialPlain] (fun _ => false)).1 = [TableKind.cards] ∧
    TableKind.protocols ∉ (write_csv_to_s3 [some trialPlain] (fun _ => false)).1 ∧
    TableKind.results ∉ (write_csv_to_s3 [some trialPlain] (fun _ => false)).1 := by
  decide

/-- Closed form of the driver loop: starting at day s and running through
day s plus n inclusive, the loop performs one single-day iteration per
day. -/
theorem mainLoop_closed (n s : Nat) :
    mainLoop s (s + n) = (List.range (n + 1)).map
      (fun i => ((s + i, s + i), scrape_by_date_range (s + i) (s + i))) := by
  induction n generalizing s with
  | zero =>
    rw [mainLoop, dif_pos (Nat.le_add_right s 0)]
    rw [mainLoop, dif_neg (by omega)]
    simp [List.range_succ]
  | succ n ih =>
    rw [mainLoop, dif_pos (by omega)]
    have h1 : s + (n + 1) = (s + 1) + n := by omega
    rw [h1, ih (s + 1)]
    conv_rhs => rw [List.range_succ_eq_map]
    simp only [List.map_cons, List.map_map]
    congr 1
    have hfe : ((fun i => ((s + i, s + i), scrape_by_date_range (s + i) (s + i))) ∘ Nat.succ)
        = (fun i => ((s + 1 + i, s + 1 + i), scrape_by_date_range (s + 1 + i) (s + 1 + i))) := by
      funext i
      have h2 : s + Nat.succ i = s + 1 + i := by omega
      simp only [Function.comp_apply]
      rw [h2]
    rw [hfe]

/-- Claim C10: for a validated range with start at most end, the driver
decomposes the window into end minus start plus one single-day iterations,
one per calendar day inclusive of both endpoints; each iteration calls the
scraper with the current day as both arguments, so its persisted snapshot
has equal query start and end dates; and no iteration ever covers the whole
multi-day window in one scrape. -/
theorem date_range_decomposes_into_single_days (s e : Nat) (h : s ≤ e) :
    mainLoop s e = (List.range (e - s + 1)).map
      (fun i => ((s + i, s + i), scrape_by_date_range (s + i) (s + i))) ∧
    (mainLoop s e).length = e - s + 1 ∧
    (∀ x ∈ mainLoop s e, x.1.1 = x.1.2 ∧ x.2.query_start_date = x.2.query_end_date) ∧
    (s < e → ∀ x ∈ mainLoop s e, x.1 ≠ (s, e)) := by
  have he : e = s + (e - s) := by omega
  have hc : mainLoop s e = (List.range (e - s + 1)).map
      (fun i => ((s + i, s + i), scrape_by_date_range (s + i) (s + i))) := by
    conv_lhs => rw [he]
    exact mainLoop_closed (e - s) s
  refine ⟨hc, by rw [hc]; simp, ?_, ?_⟩
  · intro x hx
    rw [hc] at hx
    obtain ⟨i, _, hxe⟩ := List.mem_map.mp hx
    rw [← hxe]
    exact ⟨rfl, rfl⟩
  · intro hlt x hx
    rw [hc] at hx
    obtain ⟨i, _, hxe⟩ := List.mem_map.mp hx
    rw [← hxe]
    intro hcontra
    have h1 : s + i = s ∧ s + i = e := Prod.mk.injEq .. ▸ hcontra
    omega

/-- Claim C10, witness at the three-day range from day 3 to day 5. -/
theorem date_range_witness :
    3 ≤ 5 ∧
    (mainLoop 3 5 = (List.range (5 - 3 + 1)).map
       (fun i => ((3 + i, 3 + i), scrape_by_date_range (3 + i) (3 + i))) ∧
     (mainLoop 3 5).length = 5 - 3 + 1 ∧
     (∀ x ∈ mainLoop 3 5, x.1.1 = x.1.2 ∧ x.2.query_start_date = x.2.query_end_date) ∧
     (3 < 5 → ∀ x ∈ mainLoop 3 5, x.1 ≠ (3, 5))) :=
  ⟨by omega, date_range_decomposes_into_single_days 3 5 (by omega)⟩

end EUTrials
